import Mathlib

/-!
# A shallow embedding of the `sitq` task-queue core

This file models the coordination layer of the `sitq` repository
(`src/sitq/backends/sqlite.py`, `src/sitq/queue.py`, `src/sitq/worker.py`,
`src/sitq/sync.py`, `src/sitq/validation.py`, `src/sitq/core.py`) and proves
or refutes the frozen specification claims about it.

Modelling conventions:
* UTC instants are natural numbers (`Nat`).  All comparisons in the source are
  between ISO-8601 strings produced from timezone-aware UTC datetimes, for
  which lexicographic order coincides with chronological order, so an
  abstract totally ordered instant is faithful.
* Serialized payloads (`bytes`) are `List Nat`.
* A SQLite `tasks` table is a `List TaskRow` (one element per row).
* Python exceptions are explicit `Except` results, with an inductive `PyError`
  whose constructors stand for the distinct exception classes raised by the
  modelled code paths.
* Python attribute lookup on `ValidationBuilder` is modelled explicitly,
  because `sqlite.py` invokes builder methods (`is_integer`,
  `is_non_empty_string`) that `validation.py` never defines, so those calls
  raise `AttributeError` at run time.
-/

namespace Sitq

/-- Serialized payload bytes (`bytes` in Python). -/
abbrev Bytes := List Nat

/-- The `status` column of the `tasks` table in `sqlite.py`: rows are created
as `'pending'`, `reserve` sets `'reserved'`, `mark_success` sets
`'completed'` and `mark_failure` sets `'failed'`. -/
inductive TaskStatus
  | pending
  | reserved
  | completed
  | failed
deriving DecidableEq, Repr

/-- One row of the `tasks` table created by `SQLiteBackend.initialize`
(`sqlite.py`).  Columns that none of the modelled operations ever read or
write (`args`, `kwargs`, `schedule`, `last_run_time`, `result_id`) are
omitted; the retry and lock columns the operations do touch are kept. -/
structure TaskRow where
  task_id : String
  func : Bytes
  context : Option Bytes
  created_at : Nat
  available_at : Nat
  retries : Nat
  max_retries : Nat
  retry_backoff : Nat
  lock_id : Option String
  locked_until : Option Nat
  status : TaskStatus
  started_at : Option Nat
  completed_at : Option Nat
  result_data : Option Bytes
  error_message : Option String
  traceback : Option String
deriving DecidableEq, Repr

/-- `sitq.core.ReservedTask`: what `reserve` hands a worker
(`task_id, func, context, started_at`). -/
structure ReservedTask where
  task_id : String
  func : Bytes
  context : Option Bytes
  started_at : Nat
deriving DecidableEq, Repr

/-- `sitq.core.Result`, the public read model built by
`SQLiteBackend.get_result`.  `status` is the literal string stored in the
dataclass (`"success"`, `"failed"`, default `"pending"`). -/
structure Result where
  id : String
  task_id : String
  status : String
  value : Option Bytes
  error : Option String
  traceback : Option String
  enqueued_at : Option Nat
  started_at : Option Nat
  finished_at : Option Nat
deriving DecidableEq, Repr

/-- The Python exception classes raised by the modelled code paths.
`taskQueueError` carries the task id and the wrapped cause, mirroring
`TaskQueueError(..., task_id=..., cause=e)` in `queue.py`;
`timeoutError` carries the timeout and task id of
`sitq.exceptions.TimeoutError`. -/
inductive PyError
  | attributeError (msg : String)
  | validationError (msg : String)
  | runtimeError (msg : String)
  | timeoutError (timeoutSeconds : Nat) (taskId : String)
  | taskQueueError (taskId : String) (cause : PyError)
  | taskExecutionError (msg : String)
deriving DecidableEq, Repr

/-! ## The reservation ordering

`SQLiteBackend.reserve` orders eligible rows with
`ORDER BY available_at, created_at` (`sqlite.py` line 236). -/

/-- Row `a` sorts no later than row `b` in the reservation query:
ascending `available_at`, ties broken by ascending `created_at`. -/
def keyLE (a b : TaskRow) : Prop :=
  a.available_at < b.available_at ∨
    (a.available_at = b.available_at ∧ a.created_at ≤ b.created_at)

instance : DecidableRel keyLE := fun a b => by
  unfold keyLE; exact inferInstance

/-- Insert a row into a list sorted by `keyLE`. -/
def insertKey (a : TaskRow) : List TaskRow → List TaskRow
  | [] => [a]
  | b :: l => if keyLE a b then a :: b :: l else b :: insertKey a l

/-- Insertion sort by `keyLE`, the model of the query's `ORDER BY`. -/
def sortByKey : List TaskRow → List TaskRow
  | [] => []
  | a :: l => insertKey a (sortByKey l)

/-! ## `SQLiteBackend` operations (`sqlite.py`)

Each public operation first runs a `validate(...)` builder chain from
`validation.py` and only then executes its SQL.  `ValidationBuilder`
(`validation.py` lines 271-364) defines exactly the methods listed in
`builderMethods` below; `sqlite.py` also calls `is_integer` (reserve, line
219) and `is_non_empty_string` (mark_success line 274, mark_failure line 306,
get_result line 339), neither of which exists, so those attribute lookups
raise `AttributeError` before the SQL runs.  The `retry_async` decorator does
not retry `AttributeError` (it only retries `ConnectionError`/`TimeoutError`),
so the exception escapes on the first attempt. -/

/-- The method names `ValidationBuilder` actually defines in
`validation.py`. -/
def builderMethods : List String :=
  ["is_required", "is_callable", "is_string", "is_positive_number",
   "is_non_negative", "is_timezone_aware", "min_length", "max_length",
   "in_range", "in_choices", "validate"]

/-- Python attribute lookup of `name` on a `ValidationBuilder` instance:
succeeds for defined methods and raises `AttributeError` otherwise. -/
def builderLookup (name : String) : Except PyError Unit :=
  if name ∈ builderMethods then .ok ()
  else .error (.attributeError
    ("ValidationBuilder object has no attribute " ++ name))

/-- The eligibility filter of the reservation subquery
(`WHERE status = 'pending' AND available_at <= :now`, `sqlite.py` 234-235). -/
def eligibleRows (db : List TaskRow) (now : Nat) : List TaskRow :=
  db.filter (fun r => decide (r.status = .pending ∧ r.available_at ≤ now))

/-- The rows chosen by the reservation subquery, in query order:
eligible rows ordered by `(available_at, created_at)`, limited to
`maxItems` (`ORDER BY available_at, created_at LIMIT :n`). -/
def selectRows (db : List TaskRow) (maxItems : Nat) (now : Nat) :
    List TaskRow :=
  (sortByKey (eligibleRows db now)).take maxItems

/-- Building one `ReservedTask` from a selected row: the query returns
`task_id, func, context, started_at` with `started_at` freshly set to
`now` (`sqlite.py` 239, 249-255). -/
def toReservedTask (now : Nat) (row : TaskRow) : ReservedTask :=
  { task_id := row.task_id, func := row.func, context := row.context,
    started_at := now }

/-- The `UPDATE ... RETURNING` statement of `SQLiteBackend.reserve`
(`sqlite.py` 228-259): selected rows get `status = 'reserved'`,
`started_at = now`, `lock_id = uuid`, `locked_until = NULL`; the reserved
tasks are returned in query order. -/
def reserveSql (db : List TaskRow) (maxItems : Nat) (now : Nat)
    (lockId : String) : List ReservedTask × List TaskRow :=
  let sel := selectRows db maxItems now
  let ids := sel.map TaskRow.task_id
  (sel.map (toReservedTask now),
   db.map (fun row =>
     if row.task_id ∈ ids then
       { row with status := .reserved, started_at := some now,
                  lock_id := some lockId, locked_until := none }
     else row))

/-- `SQLiteBackend.reserve` (`sqlite.py` 216-269) including its validation
prelude `validate(max_items, "max_items").is_required().is_integer()...`:
the lookup of `is_integer` raises before the SQL is reached. -/
def reserve (db : List TaskRow) (maxItems : Nat) (now : Nat)
    (lockId : String) : Except PyError (List ReservedTask × List TaskRow) := do
  builderLookup "is_required"
  builderLookup "is_integer"
  builderLookup "is_positive_number"
  builderLookup "is_required"
  builderLookup "is_timezone_aware"
  .ok (reserveSql db maxItems now lockId)

/-- The `UPDATE` statement of `SQLiteBackend.mark_success`
(`sqlite.py` 282-289): `SET status = 'completed', result_data = ?,
completed_at = ? WHERE task_id = ?`.  Note that the `WHERE` clause matches
on `task_id` only — there is no `status = 'reserved'` guard, so the update
applies to a row in any state. -/
def markSuccessSql (db : List TaskRow) (tid : String) (value : Bytes)
    (now : Nat) : List TaskRow :=
  db.map (fun row =>
    if row.task_id = tid then
      { row with status := .completed, result_data := some value,
                 completed_at := some now }
    else row)

/-- `SQLiteBackend.mark_success` (`sqlite.py` 271-301) including its
validation prelude: the lookup of `is_non_empty_string` (line 274) raises
before the SQL is reached. -/
def markSuccess (db : List TaskRow) (tid : String) (value : Bytes)
    (now : Nat) : Except PyError (List TaskRow) := do
  builderLookup "is_required"
  builderLookup "is_non_empty_string"
  builderLookup "is_required"
  .ok (markSuccessSql db tid value now)

/-- The `UPDATE` statement of `SQLiteBackend.mark_failure`
(`sqlite.py` 315-322): `SET status = 'failed', error_message = ?,
traceback = ?, completed_at = ? WHERE task_id = ?`. -/
def markFailureSql (db : List TaskRow) (tid : String) (err tb : String)
    (now : Nat) : List TaskRow :=
  db.map (fun row =>
    if row.task_id = tid then
      { row with status := .failed, error_message := some err,
                 traceback := some tb, completed_at := some now }
    else row)

/-- The row lookup and `Result` construction of `SQLiteBackend.get_result`
(`sqlite.py` 343-401): a `'completed'` row is surfaced as a `Result` with
`status = "success"` and `value = result_data`; a `'failed'` row as
`status = "failed"` with the stored diagnostics; anything else (absent,
pending or reserved row) yields `None`.  `rid` stands for the fresh
`uuid4` the code assigns to `Result.id`. -/
def backendGetResultSql (rid : String) (db : List TaskRow) (tid : String) :
    Option Result :=
  match db.find? (fun r => r.task_id == tid) with
  | none => none
  | some row =>
    match row.status with
    | .completed => some
        { id := rid, task_id := tid, status := "success",
          value := row.result_data, error := none, traceback := none,
          enqueued_at := some row.created_at, started_at := row.started_at,
          finished_at := row.completed_at }
    | .failed => some
        { id := rid, task_id := tid, status := "failed",
          value := none, error := row.error_message,
          traceback := row.traceback,
          enqueued_at := some row.created_at, started_at := row.started_at,
          finished_at := row.completed_at }
    | _ => none

/-! ## `TaskQueue.get_result` (`queue.py` 141-185)

The loop body polls `Backend.get_result`, returns the `Result` as soon as
one is observed, and otherwise checks `if timeout and elapsed > timeout`.
Because `0` is falsy in Python, `timeout = 0` disables the timeout check
exactly like `timeout = None`.  When the check fires, the
`raise TimeoutError(...)` at line 171 executes *inside* the `try:` block, so
the `except Exception` handler at line 179 catches it and re-raises
`TaskQueueError(..., cause=e)`.

The embedding abstracts the backend as `results : Nat → Option Result`
(the value `backend.get_result` yields at the k-th poll) and the wall clock
as `elapsed : Nat → Nat` (the whole seconds `(_now() - start).total_seconds()`
has reached at the k-th poll).  `fuel` bounds how many polls we observe; the
outcome `none` means the loop is still polling after `fuel` iterations. -/

/-- One run of the `while True` loop of `TaskQueue.get_result`, observed for
at most `fuel` iterations starting at poll index `k`. -/
def taskQueueGetResult (tid : String) (results : Nat → Option Result)
    (elapsed : Nat → Nat) (timeout : Option Nat) :
    Nat → Nat → Option (Except PyError Result)
  | 0, _ => none
  | fuel + 1, k =>
    match results k with
    | some r => some (.ok r)
    | none =>
      match timeout with
      | some t =>
        if t ≠ 0 ∧ elapsed k > t then
          some (.error (.taskQueueError tid (.timeoutError t tid)))
        else
          taskQueueGetResult tid results elapsed (some t) fuel (k + 1)
      | none => taskQueueGetResult tid results elapsed none fuel (k + 1)

/-- `TaskQueue.deserialize_result` (`queue.py` 187-219): returns `None` when
`result.value is None`, otherwise the decoded value.  `decode` stands for
`serializer.deserialize_result`. -/
def deserializeResult {α : Type} (decode : Bytes → α) (r : Result) :
    Option α :=
  r.value.map decode

/-! ## `Worker` (`worker.py`)

`_polling_loop` (lines 140-170) calls
`backend.reserve(max_items=self.max_concurrency, now=now)` — the limit is
the full `max_concurrency`, not the number of free slots — and for each
reserved task calls `_track_task`, which runs `asyncio.create_task(coro)`
(line 274): the `_execute_task` coroutine starts executing immediately.
The semaphore wrapper `_execute_with_semaphore` (lines 172-178) merely
awaits the already-running task, so it never gates entry into
`_execute_task`.  The model therefore counts every spawned task as
immediately in flight. -/

/-- The worker runtime state the loop manipulates: the number of
`_execute_task` coroutines currently running (`self._tasks` handles whose
work has started) and the backend database. -/
structure WorkerState where
  inFlight : Nat
  db : List TaskRow
deriving DecidableEq, Repr

/-- One iteration of `Worker._polling_loop` (`worker.py` 142-159) in which
reservation succeeds: reserve up to `max_concurrency` tasks and start each
of them immediately. -/
def pollingIteration (maxConcurrency : Nat) (s : WorkerState) (now : Nat)
    (lockId : String) : WorkerState :=
  let (res, db2) := reserveSql s.db maxConcurrency now lockId
  { inFlight := s.inFlight + res.length, db := db2 }

/-- A user-level Python exception captured by the worker: `msg` is
`str(e)` and `tb` is `traceback.format_exc()`. -/
structure PyUserExc where
  msg : String
  tb : String
deriving DecidableEq, Repr

/-- How `_execute_task` terminates: normally after `mark_success`, or by
raising `TaskExecutionError` (`worker.py` 255-268).  The raise happens
inside the coroutine created by `_track_task`, which nothing awaits except
the detached `_execute_with_semaphore` wrapper, so the exception never
reaches `_polling_loop`. -/
inductive ExecTaskEnd
  | completed
  | raisedTaskExecutionError (msg : String)
deriving DecidableEq, Repr

/-- `Worker._execute_task` (`worker.py` 180-270) from the point where the
user callable has been invoked.  `callOutcome` is the callable's result:
a value, or the exception it raised.  On success the value is serialized
and `mark_success` records it; on an exception `e` the worker records the
failure via `mark_failure(task_id, str(e), traceback.format_exc())` and
then raises `TaskExecutionError` inside its own (detached) coroutine.
The backend transitions are the protocol-level SQL bodies. -/
def executeTask {α : Type} (serialize : α → Bytes) (db : List TaskRow)
    (tid : String) (callOutcome : Except PyUserExc α) (now : Nat) :
    List TaskRow × ExecTaskEnd :=
  match callOutcome with
  | .ok v => (markSuccessSql db tid (serialize v) now, .completed)
  | .error e =>
    (markFailureSql db tid e.msg e.tb now,
     .raisedTaskExecutionError ("Task execution failed: " ++ e.msg))

/-- One complete worker cycle: a polling iteration followed by the spawned
executions running to completion.  `outcomes` gives each task's callable
outcome.  The loop itself never awaits the execution coroutines, so it
proceeds to the next iteration no matter how they end; a subsequent
`workerRound` models exactly that next iteration. -/
def workerRound {α : Type} (serialize : α → Bytes) (maxConcurrency : Nat)
    (db : List TaskRow) (now : Nat) (lockId : String)
    (outcomes : String → Except PyUserExc α) : List TaskRow :=
  let (res, db2) := reserveSql db maxConcurrency now lockId
  res.foldl
    (fun dacc rt =>
      (executeTask serialize dacc rt.task_id (outcomes rt.task_id) now).1)
    db2

/-! ## `SyncTaskQueue` (`sync.py`) -/

/-- The guard sequence of `SyncTaskQueue.__enter__` (`sync.py` 96-119):
an already-started instance raises `RuntimeError`; otherwise, if
`asyncio.get_running_loop()` finds a running event loop on this thread, a
`RuntimeError` is raised — before the runtime thread is created, so an
error outcome carries no started thread.  `.ok ()` stands for proceeding
to start the thread. -/
def syncEnter (started loopRunning : Bool) : Except PyError Unit :=
  if started then
    .error (.runtimeError
      ("SyncTaskQueue is already running - stop the current instance " ++
       "before creating a new one"))
  else if loopRunning then
    .error (.runtimeError
      ("SyncTaskQueue cannot be used inside an existing event loop. " ++
       "Use TaskQueue directly in async contexts."))
  else .ok ()

/-- What `SyncTaskQueue.get_result` hands back to the blocking caller. -/
inductive SyncGetResultValue (α : Type)
  | noneValue
  | decoded (v : α)
  | rawResult (r : Result)
deriving DecidableEq, Repr

/-- Python truthiness of an `Optional[bytes]` value: `None` and `b""` are
falsy, non-empty bytes are truthy. -/
def pyBytesTruthy : Option Bytes → Bool
  | none => false
  | some b => b ≠ []

/-- The post-processing of `SyncTaskQueue.get_result` (`sync.py` 272-296)
applied to the `Optional[Result]` the inner `TaskQueue.get_result`
returned: `None` passes through; a failed result raises
`TaskExecutionError`; a success result with *truthy* `value` is
deserialized; every other result — including a success whose stored value
is `None` or empty bytes — falls through to `return result`, handing the
caller the raw `Result` object. -/
def syncGetResultPost {α : Type} (decode : Bytes → α) (tid : String)
    (inner : Option Result) : Except PyError (SyncGetResultValue α) :=
  match inner with
  | none => .ok .noneValue
  | some r =>
    if r.status = "failed" then
      .error (.taskExecutionError
        ("Task " ++ tid ++ " failed: " ++ (r.error.getD "None")))
    else if r.status = "success" ∧ pyBytesTruthy r.value then
      .ok (.decoded (decode (r.value.getD [])))
    else .ok (.rawResult r)

/-! ## `Worker.__init__` validation (`worker.py` 47-64) -/

/-- `ValidationBuilder.validate()` (`validation.py` 359-364): raises
`ValidationError` joining the accumulated error messages, if any. -/
def vbValidate (errors : List String) : Except PyError Unit :=
  if errors = [] then .ok ()
  else .error (.validationError (String.intercalate "; " errors))

/-- The validation run by `Worker.__init__`:
`validate(max_concurrency).is_required().in_range(1, 1000).validate()`
followed by
`validate(poll_interval).is_required().is_positive_number().validate()`.
Both values are present (so `is_required` records nothing) and are numbers
(so the `isinstance` guards record nothing); `in_range` records an error
unless `1 ≤ v ≤ 1000`, and `is_positive_number` unless `v > 0`.
`poll_interval` is a float, modelled as a rational. -/
def workerInitCheck (maxConcurrency : Int) (pollInterval : ℚ) :
    Except PyError Unit :=
  match vbValidate
      (if 1 ≤ maxConcurrency ∧ maxConcurrency ≤ 1000 then []
       else ["max_concurrency must be between 1 and 1000"]) with
  | .error e => .error e
  | .ok _ =>
    vbValidate
      (if 0 < pollInterval then []
       else ["poll_interval must be a positive number"])

/-- `e.isConfigurationError` tests whether a raised exception is an instance
of `sitq.exceptions.ConfigurationError`.  The class exists in
`exceptions.py` but the modelled code paths never raise it; the constructor
is included so the test is meaningful. -/
def PyError.isConfigurationError : PyError → Bool
  | .runtimeError _ => false
  | _ => false

/-- `e.isTimeoutErrorInstance` tests whether a raised exception is an
instance of `sitq.exceptions.TimeoutError` (which has no subclasses). -/
def PyError.isTimeoutErrorInstance : PyError → Bool
  | .timeoutError _ _ => true
  | _ => false

/-! ## Concrete fixtures used by counterexamples and witnesses -/

/-- A freshly enqueued pending task row, eligible from instant `0`. -/
def row0 : TaskRow :=
  { task_id := "t1", func := [0], context := none, created_at := 0,
    available_at := 0, retries := 0, max_retries := 3, retry_backoff := 1,
    lock_id := none, locked_until := none, status := .pending,
    started_at := none, completed_at := none, result_data := none,
    error_message := none, traceback := none }

/-- `row0` after `reserveSql [row0] 1 5 "w"` has marked it reserved. -/
def row0Marked : TaskRow :=
  { row0 with status := .reserved, started_at := some 5,
              lock_id := some "w", locked_until := none }

/-- A row a worker reserved at instant `3` and then completed with stored
(encoded) value `[1, 2]` at instant `4`. -/
def rowDone : TaskRow :=
  { task_id := "t1", func := [0], context := none, created_at := 0,
    available_at := 0, retries := 0, max_retries := 3, retry_backoff := 1,
    lock_id := some "w", locked_until := none, status := .completed,
    started_at := some 3, completed_at := some 4,
    result_data := some [1, 2], error_message := none, traceback := none }

/-- A row that already finished in failure. -/
def rowFailed : TaskRow :=
  { task_id := "t1", func := [0], context := none, created_at := 0,
    available_at := 0, retries := 0, max_retries := 3, retry_backoff := 1,
    lock_id := some "w", locked_until := none, status := .failed,
    started_at := some 3, completed_at := some 4, result_data := none,
    error_message := some "boom", traceback := some "tb" }

/-- The `Result` that `SQLiteBackend.get_result` builds from `rowDone`:
note `value` is the stored bytes `[1, 2]`, verbatim. -/
def resultDone : Result :=
  { id := "r1", task_id := "t1", status := "success", value := some [1, 2],
    error := none, traceback := none, enqueued_at := some 0,
    started_at := some 3, finished_at := some 4 }

/-- A success `Result` whose stored value is the empty byte string. -/
def resultEmpty : Result :=
  { id := "r2", task_id := "t2", status := "success", value := some [],
    error := none, traceback := none, enqueued_at := some 0,
    started_at := some 1, finished_at := some 2 }

/-- A row a worker has reserved (status `'reserved'`) and not yet
finished. -/
def rowReserved : TaskRow :=
  { task_id := "t1", func := [0], context := none, created_at := 0,
    available_at := 0, retries := 0, max_retries := 3, retry_backoff := 1,
    lock_id := some "w", locked_until := none, status := .reserved,
    started_at := some 3, completed_at := none, result_data := none,
    error_message := none, traceback := none }

/-- A pending task `"a"` eligible from instant `0`, whose callable raises
`ValueError("boom")`. -/
def rowA0 : TaskRow :=
  { task_id := "a", func := [1], context := none, created_at := 0,
    available_at := 0, retries := 0, max_retries := 3, retry_backoff := 1,
    lock_id := none, locked_until := none, status := .pending,
    started_at := none, completed_at := none, result_data := none,
    error_message := none, traceback := none }

/-- A pending task `"b"` eligible only from instant `2`, whose callable
returns `5`. -/
def rowB0 : TaskRow :=
  { task_id := "b", func := [2], context := none, created_at := 1,
    available_at := 2, retries := 0, max_retries := 3, retry_backoff := 1,
    lock_id := none, locked_until := none, status := .pending,
    started_at := none, completed_at := none, result_data := none,
    error_message := none, traceback := none }

/-- The callable outcomes for the witness run of claim C7: task `"a"`
raises, every other task returns `5`. -/
def outcomes0 : String → Except PyUserExc Nat :=
  fun s => if s = "a" then .error ⟨"boom", "tb"⟩ else .ok 5

/-! ## Lemmas about the reservation ordering -/

theorem keyLE_total (a b : TaskRow) : keyLE a b ∨ keyLE b a := by
  unfold keyLE; omega

theorem keyLE_trans {a b c : TaskRow} (hab : keyLE a b) (hbc : keyLE b c) :
    keyLE a c := by
  unfold keyLE at *; omega

theorem mem_insertKey {x a : TaskRow} {l : List TaskRow} :
    x ∈ insertKey a l ↔ x = a ∨ x ∈ l := by
  induction l with
  | nil => simp [insertKey]
  | cons b l ih =>
      by_cases h : keyLE a b
      · simp [insertKey, h]
      · simp [insertKey, h, ih]
        tauto

theorem mem_sortByKey {x : TaskRow} {l : List TaskRow} :
    x ∈ sortByKey l ↔ x ∈ l := by
  induction l with
  | nil => simp [sortByKey]
  | cons a l ih => simp [sortByKey, mem_insertKey, ih]

theorem pairwise_insertKey {a : TaskRow} {l : List TaskRow}
    (h : l.Pairwise keyLE) : (insertKey a l).Pairwise keyLE := by
  induction l with
  | nil => simp [insertKey]
  | cons b l ih =>
      rcases List.pairwise_cons.mp h with ⟨hb, hl⟩
      by_cases hab : keyLE a b
      · rw [insertKey, if_pos hab]
        refine List.pairwise_cons.mpr ⟨?_, h⟩
        intro x hx
        rcases List.mem_cons.mp hx with rfl | hxl
        · exact hab
        · exact keyLE_trans hab (hb x hxl)
      · rw [insertKey, if_neg hab]
        refine List.pairwise_cons.mpr ⟨?_, ih hl⟩
        intro x hx
        rcases mem_insertKey.mp hx with hxa | hxl
        · subst hxa
          exact (keyLE_total _ b).resolve_left hab
        · exact hb x hxl

theorem pairwise_sortByKey (l : List TaskRow) :
    (sortByKey l).Pairwise keyLE := by
  induction l with
  | nil => simp [sortByKey]
  | cons _ l ih => exact pairwise_insertKey ih

/-! ## Claim C1 — bounded concurrency -/

/-- Claim C1 (code bug): the polling loop does *not* reserve at most
`max_concurrency - |in_flight|` tasks per iteration.  `_polling_loop`
passes `max_items = self.max_concurrency` unconditionally (`worker.py`
146-148) and `_track_task` starts every reserved task at once via
`asyncio.create_task` (`worker.py` 274), the semaphore wrapper only
awaiting the already-running task.  Evaluated at the failing input —
`max_concurrency = 1`, one task still in flight, one eligible pending row —
one poll iteration leaves `2 > 1` user callables inside `execute`,
violating the bounded-concurrency invariant the worker's own docstring and
`tests/unit/test_worker_concurrency.py` demand. -/
theorem pollingIteration_exceeds_bound :
    1 < (pollingIteration 1 ⟨1, [row0]⟩ 5 "w").inFlight := by decide

/-! ## Claim C8 — sync facade entered under a running event loop -/

/-- Claim C8 counterexample: entering `SyncTaskQueue` from a thread whose
event loop is running raises the *builtin* `RuntimeError`
(`sync.py` 109-112), not `sitq.exceptions.ConfigurationError` as the claim
states. -/
theorem syncEnter_raises_runtime_error :
    syncEnter false true =
      .error (.runtimeError
        ("SyncTaskQueue cannot be used inside an existing event loop. " ++
         "Use TaskQueue directly in async contexts.")) ∧
    PyError.isConfigurationError
      (.runtimeError
        ("SyncTaskQueue cannot be used inside an existing event loop. " ++
         "Use TaskQueue directly in async contexts.")) = false := by
  exact ⟨rfl, rfl⟩

/-- Claim C8 as amended: entering the sync facade with a cooperative
scheduler already running on the thread fails fast with a `RuntimeError`
(not `ConfigurationError`) whose message instructs the caller to use the
native async `TaskQueue` directly, and the error outcome means the runtime
thread was never started (the raise precedes thread creation,
`sync.py` 101-119). -/
theorem syncEnter_amended :
    (syncEnter false true =
      .error (.runtimeError
        ("SyncTaskQueue cannot be used inside an existing event loop. " ++
         "Use TaskQueue directly in async contexts."))) ∧
    (syncEnter true true =
      .error (.runtimeError
        ("SyncTaskQueue is already running - stop the current instance " ++
         "before creating a new one"))) ∧
    (syncEnter false false = .ok ()) := by
  exact ⟨rfl, rfl, rfl⟩

/-! ## Claim C9 — worker configuration ranges -/

/-- Claim C9 counterexample: `Worker.__init__` validates
`max_concurrency` with `in_range(1, 1000)` (`worker.py` 50-52), so the
integer `1001 ≥ 1` — accepted according to the claim — is rejected with a
`ValidationError`. -/
theorem workerInit_rejects_1001 :
    workerInitCheck 1001 1 =
      .error (.validationError
        "max_concurrency must be between 1 and 1000") := by
  rfl

/-- Claim C9 as amended: worker construction accepts exactly the integers
`max_concurrency ∈ [1, 1000]` together with `poll_interval > 0`; values
outside those ranges are rejected as validation errors. -/
theorem workerInit_accepts_iff (maxC : Int) (pollI : ℚ) :
    workerInitCheck maxC pollI = .ok () ↔
      (1 ≤ maxC ∧ maxC ≤ 1000 ∧ 0 < pollI) := by
  unfold workerInitCheck vbValidate
  by_cases h1 : 1 ≤ maxC ∧ maxC ≤ 1000
  · by_cases h2 : 0 < pollI
    · simp [h1, h2]
    · simp [h1, h2]
  · simp [h1]
    tauto

/-- Witness for `workerInit_accepts_iff` at `max_concurrency = 5`,
`poll_interval = 1`. -/
theorem workerInit_accepts_iff_witness :
    workerInitCheck 5 1 = .ok () :=
  (workerInit_accepts_iff 5 1).mpr (by norm_num)

/-! ## Claim C2 — the reservation contract -/

theorem reserveSql_fst (db : List TaskRow) (n now : Nat) (lockId : String) :
    (reserveSql db n now lockId).1 =
      (selectRows db n now).map (toReservedTask now) := rfl

theorem reserveSql_snd (db : List TaskRow) (n now : Nat) (lockId : String) :
    (reserveSql db n now lockId).2 =
      db.map (fun row =>
        if row.task_id ∈ (selectRows db n now).map TaskRow.task_id then
          { row with status := .reserved, started_at := some now,
                     lock_id := some lockId, locked_until := none }
        else row) := rfl

theorem mem_selectRows {row : TaskRow} {db : List TaskRow} {n now : Nat}
    (h : row ∈ selectRows db n now) :
    row ∈ db ∧ row.status = .pending ∧ row.available_at ≤ now := by
  have h2 : row ∈ sortByKey (eligibleRows db now) :=
    List.take_subset _ _ h
  have h3 : row ∈ eligibleRows db now := mem_sortByKey.mp h2
  have h4 := List.mem_filter.mp h3
  refine ⟨h4.1, ?_⟩
  simpa using h4.2

/-- Claim C2 (code bug).  First conjunct: every call to
`SQLiteBackend.reserve` raises
`AttributeError: ValidationBuilder object has no attribute is_integer`
(`sqlite.py` 219 calls a method `validation.py` never defines), so the
reservation SQL is unreachable — the code contradicts its own docstring and
test-suite.  Remaining conjuncts: the claim correctly describes the SQL
statement itself — it returns at most `max_items` tasks, each drawn from a
row that was `pending` with `available_at ≤ now`, marks every returned row
`reserved` with `started_at = now`, and returns them ordered by ascending
`(available_at, created_at)`. -/
theorem reserve_attribute_error_and_contract :
    (reserve [] 1 0 "w" =
      .error (.attributeError
        "ValidationBuilder object has no attribute is_integer")) ∧
    ∀ (db : List TaskRow) (n now : Nat) (lockId : String),
      ((reserveSql db n now lockId).1).length ≤ n ∧
      (∀ rt ∈ (reserveSql db n now lockId).1, ∃ row ∈ db,
        row.task_id = rt.task_id ∧ row.func = rt.func ∧
        row.status = .pending ∧ row.available_at ≤ now ∧
        rt.started_at = now) ∧
      (∀ row2 ∈ (reserveSql db n now lockId).2,
        row2.task_id ∈
            ((reserveSql db n now lockId).1).map ReservedTask.task_id →
        row2.status = .reserved ∧ row2.started_at = some now) ∧
      ((reserveSql db n now lockId).1 =
        (selectRows db n now).map (toReservedTask now)) ∧
      (selectRows db n now).Pairwise keyLE := by
  refine ⟨rfl, ?_⟩
  intro db n now lockId
  refine ⟨?_, ?_, ?_, rfl, ?_⟩
  · rw [reserveSql_fst, List.length_map]
    exact List.length_take_le _ _
  · intro rt hrt
    rw [reserveSql_fst] at hrt
    obtain ⟨row, hrow, rfl⟩ := List.mem_map.mp hrt
    obtain ⟨hdb, hst, hav⟩ := mem_selectRows hrow
    exact ⟨row, hdb, rfl, rfl, hst, hav, rfl⟩
  · intro row2 h2 hid
    rw [reserveSql_snd] at h2
    rw [reserveSql_fst, List.map_map] at hid
    have hmapid :
        (ReservedTask.task_id ∘ toReservedTask now) = TaskRow.task_id := by
      funext r
      rfl
    rw [hmapid] at hid
    obtain ⟨orig, horig, hfo⟩ := List.mem_map.mp h2
    by_cases hin : orig.task_id ∈ (selectRows db n now).map TaskRow.task_id
    · rw [if_pos hin] at hfo
      rw [← hfo]
      exact ⟨rfl, rfl⟩
    · rw [if_neg hin] at hfo
      rw [← hfo] at hid
      exact absurd hid hin
  · exact List.Pairwise.sublist (List.take_sublist _ _)
      (pairwise_sortByKey _)

/-- Witness for `reserve_attribute_error_and_contract`: at the concrete
one-row database `[row0]` the SQL reserves at most one task and the updated
row carrying a returned id is `reserved` with `started_at = 5`. -/
theorem reserve_contract_witness :
    ((reserveSql [row0] 1 5 "w").1).length ≤ 1 ∧
    (row0Marked.status = .reserved ∧ row0Marked.started_at = some 5) := by
  have h := reserve_attribute_error_and_contract.2 [row0] 1 5 "w"
  exact ⟨h.1, h.2.2.1 row0Marked (by decide) (by decide)⟩

/-! ## Claim C5 — `mark_success` transition discipline -/

/-- Claim C5 counterexample: called on a *reserved* row — the one situation
in which the claim promises a `reserved → success` transition storing the
value — `SQLiteBackend.mark_success` raises
`AttributeError: ValidationBuilder object has no attribute
is_non_empty_string` (`sqlite.py` 274) and transitions nothing. -/
theorem markSuccess_attribute_error :
    markSuccess [rowReserved] "t1" [9] 7 =
      .error (.attributeError
        "ValidationBuilder object has no attribute is_non_empty_string") :=
  rfl

/-- Claim C5 as amended: (1) every `mark_success` call raises
`AttributeError` before its SQL runs; (2) the `UPDATE` statement itself
(`sqlite.py` 282-289) carries no `status = 'reserved'` guard — it sets
`status = 'completed'` and stores the value for the matching `task_id`
whatever the row's prior state, so a second call on a finalized row would
silently overwrite it rather than be an error; (3) rows with a different
`task_id` are left unchanged. -/
theorem markSuccess_amended :
    (∀ (db : List TaskRow) (tid : String) (v : Bytes) (now : Nat),
        markSuccess db tid v now =
          .error (.attributeError
            "ValidationBuilder object has no attribute is_non_empty_string")) ∧
    (∀ (db : List TaskRow) (tid : String) (v : Bytes) (now : Nat)
        (row : TaskRow), row ∈ db → row.task_id = tid →
        { row with status := .completed, result_data := some v,
                   completed_at := some now } ∈ markSuccessSql db tid v now) ∧
    (∀ (db : List TaskRow) (tid : String) (v : Bytes) (now : Nat)
        (row2 : TaskRow), row2 ∈ markSuccessSql db tid v now →
        row2.task_id ≠ tid → row2 ∈ db) := by
  refine ⟨fun _ _ _ _ => rfl, ?_, ?_⟩
  · intro db tid v now row hrow hid
    have hmem : (fun r : TaskRow =>
        if r.task_id = tid then
          { r with status := .completed, result_data := some v,
                   completed_at := some now }
        else r) row ∈ markSuccessSql db tid v now :=
      List.mem_map_of_mem _ hrow
    simpa [hid] using hmem
  · intro db tid v now row2 h2 hneq
    obtain ⟨orig, horig, hfo⟩ := List.mem_map.mp h2
    by_cases hin : orig.task_id = tid
    · rw [if_pos hin] at hfo
      rw [← hfo] at hneq
      exact absurd hin hneq
    · rw [if_neg hin] at hfo
      rw [← hfo]
      exact horig

/-- Witness for `markSuccess_amended`: the SQL body applied to a database
holding only an already-*failed* row silently rewrites it to `completed`
with the new value, and a call aimed at a different id leaves the row
alone. -/
theorem markSuccess_amended_witness :
    ({ rowFailed with status := .completed, result_data := some [9],
                      completed_at := some 7 }
        ∈ markSuccessSql [rowFailed] "t1" [9] 7) ∧
    rowFailed ∈ [rowFailed] := by
  refine ⟨markSuccess_amended.2.1 [rowFailed] "t1" [9] 7 rowFailed
      (by decide) rfl, ?_⟩
  exact markSuccess_amended.2.2 [rowFailed] "t2" [9] 7 rowFailed
    (by decide) (by decide)

/-! ## Claim C3 — `get_result` with `timeout = 0` -/

/-- Claim C3 counterexample: with no result stored,
`TaskQueue.get_result(task_id, timeout=0)` does *not* return immediately
(let alone after exactly one lookup): because `0` is falsy, the
`if timeout and ...` check at `queue.py` 170 never fires, and after ten
polls (ten backend lookups, five seconds of inter-poll sleeps) the loop is
still running. -/
theorem timeoutZero_not_immediate :
    taskQueueGetResult "t1" (fun _ => none) (fun k => k) (some 0) 10 0 =
      none := rfl

/-- Claim C3 as amended: `timeout = 0` is treated exactly like
`timeout = null` — the loop returns the stored result as soon as one
exists, behaves identically to the no-timeout loop at every fuel, and when
no result is ever stored it polls forever instead of returning `null`. -/
theorem timeoutZero_behaves_like_none :
    (∀ (tid : String) (results : Nat → Option Result)
        (elapsed : Nat → Nat) (fuel k : Nat) (r : Result),
        results k = some r →
        taskQueueGetResult tid results elapsed (some 0) (fuel + 1) k =
          some (.ok r)) ∧
    (∀ (tid : String) (results : Nat → Option Result)
        (elapsed : Nat → Nat) (fuel k : Nat),
        taskQueueGetResult tid results elapsed (some 0) fuel k =
          taskQueueGetResult tid results elapsed none fuel k) ∧
    (∀ (tid : String) (elapsed : Nat → Nat) (fuel k : Nat),
        taskQueueGetResult tid (fun _ => none) elapsed (some 0) fuel k =
          none) := by
  refine ⟨?_, ?_, ?_⟩
  · intro tid results elapsed fuel k r h
    simp [taskQueueGetResult, h]
  · intro tid results elapsed fuel
    induction fuel with
    | zero => intro k; rfl
    | succ f ih =>
        intro k
        simp only [taskQueueGetResult]
        cases hres : results k with
        | some r => simp [hres]
        | none => simp [hres, ih (k + 1)]
  · intro tid elapsed fuel
    induction fuel with
    | zero => intro k; rfl
    | succ f ih =>
        intro k
        simp only [taskQueueGetResult]
        simpa using ih (k + 1)

/-- Witness for `timeoutZero_behaves_like_none`: with a stored success
result, the `timeout = 0` call returns it on the first poll. -/
theorem timeoutZero_witness :
    taskQueueGetResult "t1" (fun _ => some resultDone) (fun k => k)
      (some 0) 1 0 = some (.ok resultDone) :=
  timeoutZero_behaves_like_none.1 "t1" _ _ 0 0 resultDone rfl

/-! ## Claim C4 — the timeout exception type -/

theorem taskQueueGetResult_succ_some {tid : String}
    {results : Nat → Option Result} {elapsed : Nat → Nat}
    {timeout : Option Nat} {fuel k : Nat} {r : Result}
    (h : results k = some r) :
    taskQueueGetResult tid results elapsed timeout (fuel + 1) k =
      some (.ok r) := by
  simp [taskQueueGetResult, h]

theorem taskQueueGetResult_succ_none_none {tid : String}
    {results : Nat → Option Result} {elapsed : Nat → Nat} {fuel k : Nat}
    (h : results k = none) :
    taskQueueGetResult tid results elapsed none (fuel + 1) k =
      taskQueueGetResult tid results elapsed none fuel (k + 1) := by
  simp [taskQueueGetResult, h]

theorem taskQueueGetResult_succ_none_some {tid : String}
    {results : Nat → Option Result} {elapsed : Nat → Nat} {t fuel k : Nat}
    (h : results k = none) :
    taskQueueGetResult tid results elapsed (some t) (fuel + 1) k =
      (if t ≠ 0 ∧ elapsed k > t then
        some (.error (.taskQueueError tid (.timeoutError t tid)))
      else taskQueueGetResult tid results elapsed (some t) fuel (k + 1)) := by
  simp [taskQueueGetResult, h]

/-- Claim C4 counterexample: with `timeout = 2` and no result ever stored,
the caller receives a `TaskQueueError` (wrapping the `TimeoutError` as its
cause), not a `TimeoutError`: the `raise TimeoutError` at `queue.py` 171
sits inside the `try:` block, and the `except Exception` handler at line
179 re-wraps it. -/
theorem timeout_raises_wrapper :
    (taskQueueGetResult "t1" (fun _ => none) (fun k => k) (some 2) 5 0 =
      some (.error (.taskQueueError "t1" (.timeoutError 2 "t1")))) ∧
    PyError.isTimeoutErrorInstance
      (.taskQueueError "t1" (.timeoutError 2 "t1")) = false :=
  ⟨rfl, rfl⟩

/-- Claim C4 as amended: once the elapsed time exceeds a truthy timeout
`t`, `get_result` raises a `TaskQueueError` whose cause is the
`TimeoutError(t)` — and every error the loop can ever surface has exactly
that wrapped shape. -/
theorem timeout_elapse_wrapped :
    (∀ (tid : String) (results : Nat → Option Result)
        (elapsed : Nat → Nat) (t fuel k : Nat),
        results k = none → t ≠ 0 → t < elapsed k →
        taskQueueGetResult tid results elapsed (some t) (fuel + 1) k =
          some (.error (.taskQueueError tid (.timeoutError t tid)))) ∧
    (∀ (tid : String) (results : Nat → Option Result)
        (elapsed : Nat → Nat) (timeout : Option Nat) (fuel k : Nat)
        (e : PyError),
        taskQueueGetResult tid results elapsed timeout fuel k =
          some (.error e) →
        ∃ t, timeout = some t ∧ t ≠ 0 ∧
          e = .taskQueueError tid (.timeoutError t tid)) := by
  constructor
  · intro tid results elapsed t fuel k hres ht hel
    simp [taskQueueGetResult, hres, ht, hel]
  · intro tid results elapsed timeout fuel
    induction fuel with
    | zero =>
        intro k e h
        exact absurd h (by simp [taskQueueGetResult])
    | succ f ih =>
        intro k e h
        cases hres : results k with
        | some r =>
            rw [taskQueueGetResult_succ_some hres] at h
            simp at h
        | none =>
            cases timeout with
            | none =>
                rw [taskQueueGetResult_succ_none_none hres] at h
                exact ih (k + 1) e h
            | some t =>
                rw [taskQueueGetResult_succ_none_some hres] at h
                by_cases hg : t ≠ 0 ∧ elapsed k > t
                · rw [if_pos hg] at h
                  simp at h
                  exact ⟨t, rfl, hg.1, h.symm⟩
                · rw [if_neg hg] at h
                  exact ih (k + 1) e h

/-- Witness for `timeout_elapse_wrapped`: a concrete elapsed clock already
past the two-second timeout yields the wrapped error on the next poll. -/
theorem timeout_elapse_wrapped_witness :
    taskQueueGetResult "t1" (fun _ => none) (fun k => k + 5) (some 2) 1 0 =
      some (.error (.taskQueueError "t1" (.timeoutError 2 "t1"))) :=
  timeout_elapse_wrapped.1 "t1" _ _ 2 0 0 rfl (by decide) (by decide)

/-! ## Claim C6 — decoding of the returned value -/

/-- Claim C6 counterexample: with the codec `decode = List.reverse`, a
stored success value `[1, 2]` is returned by `TaskQueue.get_result` still
encoded — the caller receives the `Result` whose `value` is the stored
bytes `[1, 2]`, while the decoded value would be `[2, 1]`; decoding happens
only in the separate `deserialize_result` helper. -/
theorem getResult_returns_encoded :
    (taskQueueGetResult "t1"
        (fun _ => backendGetResultSql "r1" [rowDone] "t1") (fun k => k)
        none 1 0 = some (.ok resultDone)) ∧
    resultDone.value = some [1, 2] ∧
    deserializeResult List.reverse resultDone = some [2, 1] ∧
    (some ([1, 2] : Bytes) ≠ some ([2, 1] : Bytes)) := by
  refine ⟨rfl, rfl, rfl, by decide⟩

/-- Claim C6 as amended: `TaskQueue.get_result` returns the backend's
`Result` verbatim — whatever result it hands back was produced by some
backend poll, value untouched; the codec is applied only by the separate
`TaskQueue.deserialize_result`, which maps the stored bytes through
`decode`. -/
theorem getResult_value_verbatim :
    (∀ (tid : String) (results : Nat → Option Result)
        (elapsed : Nat → Nat) (timeout : Option Nat) (fuel k : Nat)
        (r : Result),
        taskQueueGetResult tid results elapsed timeout fuel k =
          some (.ok r) →
        ∃ j, k ≤ j ∧ results j = some r) ∧
    (∀ (α : Type) (decode : Bytes → α) (r : Result) (v : Bytes),
        r.value = some v →
        deserializeResult decode r = some (decode v)) := by
  constructor
  · intro tid results elapsed timeout fuel
    induction fuel with
    | zero =>
        intro k r h
        exact absurd h (by simp [taskQueueGetResult])
    | succ f ih =>
        intro k r h
        cases hres : results k with
        | some r2 =>
            rw [taskQueueGetResult_succ_some hres] at h
            simp at h
            exact ⟨k, le_refl k, by rw [hres, h]⟩
        | none =>
            cases timeout with
            | none =>
                rw [taskQueueGetResult_succ_none_none hres] at h
                obtain ⟨j, hj, hr⟩ := ih (k + 1) r h
                exact ⟨j, by omega, hr⟩
            | some t =>
                rw [taskQueueGetResult_succ_none_some hres] at h
                by_cases hg : t ≠ 0 ∧ elapsed k > t
                · rw [if_pos hg] at h
                  simp at h
                · rw [if_neg hg] at h
                  obtain ⟨j, hj, hr⟩ := ih (k + 1) r h
                  exact ⟨j, by omega, hr⟩
  · intro α decode r v h
    simp [deserializeResult, h]

/-- Witness for `getResult_value_verbatim`: deserializing `resultDone`
through the reversing codec yields the decoded `[2, 1]`, a separate step
from `get_result`. -/
theorem getResult_value_verbatim_witness :
    deserializeResult List.reverse resultDone =
      some (List.reverse [1, 2]) :=
  getResult_value_verbatim.2 Bytes List.reverse resultDone [1, 2] rfl

/-! ## Claim C10 — sync facade and falsy success values -/

/-- Claim C10: when `SyncTaskQueue.get_result` observes a success `Result`
whose stored value is `None` or empty bytes, the truthiness test
`result.value` at `sync.py` 284 fails and the method falls through to
`return result`, leaking the raw internal `Result` object to the blocking
caller; the stored bytes are deserialized only when non-empty. -/
theorem syncSuccess_empty_value_raw :
    (∀ (α : Type) (decode : Bytes → α) (tid : String) (r : Result),
        r.status = "success" → (r.value = none ∨ r.value = some []) →
        syncGetResultPost decode tid (some r) = .ok (.rawResult r)) ∧
    (∀ (α : Type) (decode : Bytes → α) (tid : String) (r : Result)
        (v : Bytes),
        r.status = "success" → r.value = some v → v ≠ [] →
        syncGetResultPost decode tid (some r) =
          .ok (.decoded (decode v))) := by
  constructor
  · intro α decode tid r hs hv
    rcases hv with hv | hv <;>
      simp [syncGetResultPost, hs, hv, pyBytesTruthy]
  · intro α decode tid r v hs hv hne
    simp [syncGetResultPost, hs, hv, pyBytesTruthy, hne]

/-- Witness for `syncSuccess_empty_value_raw`: a success result storing
empty bytes is handed back raw. -/
theorem syncSuccess_empty_value_raw_witness :
    syncGetResultPost (fun b => b) "t2" (some resultEmpty) =
      .ok (.rawResult resultEmpty) :=
  syncSuccess_empty_value_raw.1 Bytes (fun b => b) "t2" resultEmpty rfl
    (Or.inr rfl)

/-! ## Claim C7 — failure capture and loop survival -/

/-- Claim C7: when a user callable raises, `Worker._execute_task` records
the failure through `mark_failure(task_id, str(e), traceback.format_exc())`
(`worker.py` 236-248), leaving the task `failed` with `error_message` and
`traceback` set, and the exception never reaches `_polling_loop` (the
`TaskExecutionError` re-raise happens inside the detached coroutine), so
the loop keeps polling: in the very next round it reserves and successfully
completes another task.  Stated over two rounds of the worker loop against
the backend protocol's transitions (the SQL bodies; the shipped
`SQLiteBackend` additionally fails in its validation prelude, a defect
recorded with claims C2 and C5): `rowA` (eligible first, its callable
raises `e`) ends `failed` with the captured message and trace, while `rowB`
(eligible only in the second round, its callable returns `v`) still ends
`completed` with the serialized value. -/
theorem userExc_recorded_loop_survives {α : Type} (serialize : α → Bytes)
    (maxC : Nat) (rowA rowB : TaskRow) (e : PyUserExc) (v : α)
    (now1 now2 : Nat) (l1 l2 : String)
    (outcomes : String → Except PyUserExc α)
    (hA : rowA.status = .pending) (hAv : rowA.available_at ≤ now1)
    (hB : rowB.status = .pending) (hBv1 : now1 < rowB.available_at)
    (hBv2 : rowB.available_at ≤ now2)
    (hne : rowA.task_id ≠ rowB.task_id) (hmc : 1 ≤ maxC)
    (hoA : outcomes rowA.task_id = .error e)
    (hoB : outcomes rowB.task_id = .ok v) :
    ∀ row ∈ workerRound serialize maxC
        (workerRound serialize maxC [rowA, rowB] now1 l1 outcomes)
        now2 l2 outcomes,
      (row.task_id = rowA.task_id →
        row.status = .failed ∧ row.error_message = some e.msg ∧
        row.traceback = some e.tb) ∧
      (row.task_id = rowB.task_id →
        row.status = .completed ∧
        row.result_data = some (serialize v)) := by
  have hne2 : ¬ (rowB.task_id = rowA.task_id) := fun h => hne h.symm
  have hBv1n : ¬ (rowB.available_at ≤ now1) := by omega
  have hel1 : eligibleRows [rowA, rowB] now1 = [rowA] := by
    simp [eligibleRows, hA, hAv, hB, hBv1n]
  have hsel1 : selectRows [rowA, rowB] maxC now1 = [rowA] := by
    rw [selectRows, hel1]
    rw [show sortByKey [rowA] = [rowA] from rfl]
    exact List.take_of_length_le (by simpa using hmc)
  have hdb1 : workerRound serialize maxC [rowA, rowB] now1 l1 outcomes =
      [{ rowA with status := .failed, started_at := some now1,
                   lock_id := some l1, locked_until := none,
                   error_message := some e.msg, traceback := some e.tb,
                   completed_at := some now1 }, rowB] := by
    simp [workerRound, reserveSql, hsel1, hne2, toReservedTask,
      executeTask, hoA, markFailureSql, hne]
  rw [hdb1]
  have hel2 : eligibleRows
      [{ rowA with status := .failed, started_at := some now1,
                   lock_id := some l1, locked_until := none,
                   error_message := some e.msg, traceback := some e.tb,
                   completed_at := some now1 }, rowB] now2 = [rowB] := by
    simp [eligibleRows, hB, hBv2]
  have hsel2 : selectRows
      [{ rowA with status := .failed, started_at := some now1,
                   lock_id := some l1, locked_until := none,
                   error_message := some e.msg, traceback := some e.tb,
                   completed_at := some now1 }, rowB] maxC now2 = [rowB] := by
    rw [selectRows, hel2]
    rw [show sortByKey [rowB] = [rowB] from rfl]
    exact List.take_of_length_le (by simpa using hmc)
  have hdb2 : workerRound serialize maxC
      [{ rowA with status := .failed, started_at := some now1,
                   lock_id := some l1, locked_until := none,
                   error_message := some e.msg, traceback := some e.tb,
                   completed_at := some now1 }, rowB] now2 l2 outcomes =
      [{ rowA with status := .failed, started_at := some now1,
                   lock_id := some l1, locked_until := none,
                   error_message := some e.msg, traceback := some e.tb,
                   completed_at := some now1 },
       { rowB with status := .completed, started_at := some now2,
                   lock_id := some l2, locked_until := none,
                   result_data := some (serialize v),
                   completed_at := some now2 }] := by
    simp [workerRound, reserveSql, hsel2, hne2, toReservedTask,
      executeTask, hoB, markSuccessSql, hne]
  rw [hdb2]
  intro row hrow
  rcases List.mem_cons.mp hrow with rfl | hrow2
  · refine ⟨fun _ => ⟨rfl, rfl, rfl⟩, fun hcontra => ?_⟩
    exact absurd hcontra hne
  · rcases List.mem_cons.mp hrow2 with rfl | hnil
    · refine ⟨fun hcontra => ?_, fun _ => ⟨rfl, rfl⟩⟩
      exact absurd hcontra hne2
    · cases hnil

/-- Witness for `userExc_recorded_loop_survives`: in the concrete two-round
run with `max_concurrency = 1`, task `"a"` ends failed with message
`"boom"` and trace `"tb"`, and the loop's second round still completes task
`"b"` with stored value `[5]`. -/
theorem userExc_recorded_loop_survives_witness :
    (({ rowA0 with status := .failed, started_at := some 1,
                   lock_id := some "w1", locked_until := none,
                   error_message := some "boom", traceback := some "tb",
                   completed_at := some 1 } : TaskRow).status = .failed ∧
      ({ rowA0 with status := .failed, started_at := some 1,
                    lock_id := some "w1", locked_until := none,
                    error_message := some "boom", traceback := some "tb",
                    completed_at := some 1 } : TaskRow).error_message =
        some "boom" ∧
      ({ rowA0 with status := .failed, started_at := some 1,
                    lock_id := some "w1", locked_until := none,
                    error_message := some "boom", traceback := some "tb",
                    completed_at := some 1 } : TaskRow).traceback =
        some "tb") ∧
    (({ rowB0 with status := .completed, started_at := some 3,
                   lock_id := some "w2", locked_until := none,
                   result_data := some [5],
                   completed_at := some 3 } : TaskRow).status = .completed ∧
      ({ rowB0 with status := .completed, started_at := some 3,
                    lock_id := some "w2", locked_until := none,
                    result_data := some [5],
                    completed_at := some 3 } : TaskRow).result_data =
        some [5]) := by
  have h := userExc_recorded_loop_survives (fun n : Nat => [n]) 1 rowA0
    rowB0 ⟨"boom", "tb"⟩ 5 1 3 "w1" "w2" outcomes0 rfl (by decide) rfl
    (by decide) (by decide) (by decide) (by decide) rfl rfl
  exact ⟨(h _ (by decide)).1 rfl, (h _ (by decide)).2 rfl⟩

end Sitq
